import Mathlib

/-!
Verification of the gRNAde inverse-design pipeline (gRNAde.py).

The development shallowly embeds the pipeline:
* machine floats are modelled by rationals where only arithmetic and
  comparisons matter, and by reals where transcendental functions
  (exp, log) appear;
* coordinate tensors are lists of residues, each residue a list of
  atoms, each atom a list of rational components;
* fallible code returns Except;
* external collaborators that live outside the single source file
  (the trained GNN sampler, the featurizer, the self-consistency
  scorer, the backbone-atom lookup) are taken as explicit function
  parameters or modelled from the specification, as marked.
-/

/-- Modelled from the spec: the sentinel fill value used for missing
atom coordinates (src.constants.FILL_VALUE, outside the provided
source file). The development only compares coordinates against this
constant, so its exact numeric value is irrelevant; it is given here
directly in reduced fraction form (1 / 100000, i.e. 1e-5). -/
def FILL_VALUE : ℚ := Rat.mk' 1 100000 (by norm_num) (Nat.coprime_one_left _)

/-- An atom's coordinates (a list of rational components). -/
abbrev Coord := List ℚ

/-- One conformer coordinate tensor of shape
(num_res, atoms_per_res, 3). The field atoms_per_res records the
tensor's second shape dimension (raw_data.coords_list[i].shape[1]). -/
structure Conformer where
  atoms_per_res : ℕ
  residues : List (List Coord)
deriving DecidableEq

/-- The raw RNA data dictionary consumed by gRNAde.design:
sequence, coords_list and sec_struct_list. -/
structure RawData where
  sequence : String
  coords_list : List Conformer
  sec_struct_list : List String
deriving DecidableEq

/-- The featurized graph data used by gRNAde.design: the ground-truth
integer sequence labels (featurized_data.seq) and the per-node
coordinate-validity mask (featurized_data.mask_coords). Other graph
features do not appear in the claims. -/
structure FeatData where
  seq : List ℕ
  mask_coords : List Bool
deriving DecidableEq

/-- One labeled sequence record (Bio SeqRecord): its id string and the
letter sequence. The free-text description field (float-formatted
metadata) is not modelled. -/
structure SeqRec where
  id : String
  seq : String
deriving DecidableEq

/-- The global random state mutated by set_seed: the python, numpy,
torch CPU and CUDA generators plus the cudnn backend flags. -/
structure RngState where
  python : ℕ
  numpy : ℕ
  torch : ℕ
  cuda : ℕ
  cuda_all : ℕ
  cudnn_deterministic : Bool
  cudnn_benchmark : Bool
deriving DecidableEq

/-- set_seed(seed): reseeds every random source from the single given
seed and forces deterministic cudnn kernels. -/
def set_seed (seed : ℕ) : RngState :=
  { python := seed
    numpy := seed
    torch := seed
    cuda := seed
    cuda_all := seed
    cudnn_deterministic := true
    cudnn_benchmark := false }

/-- Modelled from the spec: the bijective mapping from integer class
values 0-3 to nucleotide letters (src.constants.NUM_TO_LETTER, outside
the provided source file). -/
def NUM_TO_LETTER : Fin 4 → Char
  | 0 => 'A'
  | 1 => 'G'
  | 2 => 'C'
  | 3 => 'U'

/-- Per-residue test (coords == FILL_VALUE).sum(axis=(1,2)) > 0 from
gRNAde.design: does the residue contain at least one sentinel-filled
coordinate component. -/
def residueHasFill (r : List Coord) : Bool :=
  r.any (fun a => a.any (fun x => decide (x = FILL_VALUE)))

/-- torch.all((coords == FILL_VALUE).sum(axis=(1,2)) > 0): every
residue of the conformer has at least one missing coordinate
component, i.e. the conformer is dropped by gRNAde.design. -/
def dropConformer (c : Conformer) : Bool :=
  c.residues.all residueHasFill

/-- Modelled from the spec: get_backbone_coords
(src.data.data_utils.get_backbone_coords, outside the provided source
file) selects exactly 3 canonical backbone atoms per residue through a
fixed nucleotide-type-dependent atom lookup (the parameter bbIdx),
filling absent atoms with the sentinel value. -/
def get_backbone_coords (bbIdx : Char → List ℕ) (c : Conformer)
    (sequence : String) : Conformer :=
  { atoms_per_res := 3
    residues := (c.residues.zip sequence.toList).map
      (fun p => (bbIdx p.2).map
        (fun i => p.1.getD i [FILL_VALUE, FILL_VALUE, FILL_VALUE])) }

/-- The coordinate-normalization prefix of gRNAde.design (the branch
on raw_data.coords_list[0].shape[1]): backbone-only input passes
through; full-atom input is reduced to backbone atoms and conformers
whose residues all have missing coordinates are filtered out, the
filtered list replacing coords_list only when it is nonempty; any
other atom count raises ValueError. lenRNA is len(RNA_ATOMS), the
full canonical atom count. -/
def normalize_coords (lenRNA : ℕ) (bbIdx : Char → List ℕ)
    (raw : RawData) : Except String RawData :=
  match raw.coords_list with
  | [] => Except.error "IndexError: list index out of range"
  | c0 :: _ =>
    if c0.atoms_per_res = 3 then
      Except.ok raw
    else if c0.atoms_per_res = lenRNA then
      let kept := (raw.coords_list.map
          (fun c => get_backbone_coords bbIdx c raw.sequence)).filter
        (fun c => !(dropConformer c))
      if 0 < kept.length then
        Except.ok { raw with coords_list := kept }
      else
        Except.ok raw
    else
      Except.error
        ("ValueError: Invalid number of atoms per nucleotide in input data: "
          ++ toString c0.atoms_per_res)

/-- F.cross_entropy with logits input for a single position: the
categorical cross-entropy between the 4-class logit vector and the
sampled target class, log-sum-exp of the logits minus the target
logit. -/
noncomputable def categorical_cross_entropy (l : Fin 4 → ℝ) (t : Fin 4) : ℝ :=
  Real.log (∑ j, Real.exp (l j)) - l t

/-- The per-sample perplexity of gRNAde.design: the exponential of
the mean over positions of the categorical cross-entropy between the
realized logits and the sampled classes. -/
noncomputable def sample_perplexity (logits : List (Fin 4 → ℝ))
    (sample : List (Fin 4)) : ℝ :=
  Real.exp ((List.zipWith categorical_cross_entropy logits sample).sum
    / (logits.length : ℝ))

/-- torch.exp(F.cross_entropy(...).view(n_samples, n_nodes).mean(dim=1)):
one perplexity per sample row. -/
noncomputable def perplexity_scores (logits : List (List (Fin 4 → ℝ)))
    (samples : List (List (Fin 4))) : List ℝ :=
  List.zipWith sample_perplexity logits samples

/-- One row of samples.eq(featurized_data.seq).float().mean(dim=1):
the fraction of positions where the sampled class equals the
ground-truth label. -/
def recovery_row (row : List (Fin 4)) (gt : List ℕ) : ℚ :=
  (List.zipWith (fun (a : Fin 4) (b : ℕ) => if (a : ℕ) = b then (1 : ℚ) else 0)
    row gt).sum / (row.length : ℚ)

/-- samples.eq(featurized_data.seq).float().mean(dim=1): one recovery
value per sample row. -/
def recovery_scores (samples : List (List (Fin 4))) (gt : List ℕ) : List ℚ :=
  samples.map (fun row => recovery_row row gt)

/-- The number of positions at which the sampled class equals the
ground-truth label. -/
def countMatches (row : List (Fin 4)) (gt : List ℕ) : ℕ :=
  (List.zipWith (fun (a : Fin 4) (b : ℕ) => decide ((a : ℕ) = b)) row gt).count
    true

/-- The record-assembly loop of gRNAde.design,
for idx, zipped in enumerate(zip(samples, perplexity, recovery,
sc_score)): one record per sample (truncating at the shortest of the
four lists, as python zip does), with id "sample=idx," and the sample
row rendered through NUM_TO_LETTER. The description string
(temperature and float-formatted metrics) is not modelled. -/
def designed_records (idx : ℕ) : List (List (Fin 4)) → List ℝ → List ℚ →
    List ℚ → List SeqRec
  | s :: ss, _ :: ps, _ :: rs, _ :: cs =>
    { id := "sample=" ++ toString idx ++ ","
      seq := String.mk (s.map NUM_TO_LETTER) }
      :: designed_records (idx + 1) ss ps rs cs
  | _, _, _, _ => []

/-- The first record assembled by gRNAde.design: the input reference
sequence with id "input_sequence,". -/
def input_record (sequence : String) : SeqRec :=
  { id := "input_sequence,", seq := sequence }

/-- The result bundle returned by gRNAde.design. -/
structure DesignResult where
  sequences : List SeqRec
  samples : List (List (Fin 4))
  perplexity : List ℝ
  recovery : List ℚ
  sc_score : List ℚ

/-- gRNAde.design. External collaborators appear as parameters:
lenRNA is len(RNA_ATOMS); bbIdx is the backbone atom lookup inside
get_backbone_coords; featurize is self.featurizer.featurize;
sampler is self.model.sample, a deterministic function of the seeded
random state, the featurized data, n_samples and temperature
(deterministic backend kernels); sc is
src.trainer.self_consistency_score. The incoming global random state
rng is overwritten by set_seed(seed) before sampling. The function
returns the design result together with the final state of the
raw_data dictionary, which the python code mutates in place. -/
noncomputable def design (lenRNA : ℕ) (bbIdx : Char → List ℕ)
    (featurize : RawData → FeatData)
    (sampler : RngState → FeatData → ℕ → ℚ →
      List (List (Fin 4)) × List (List (Fin 4 → ℝ)))
    (sc : List (List (Fin 4)) → List String → List Bool → List ℚ)
    (rng : RngState) (raw : RawData) (featurized : Option FeatData)
    (n_samples : ℕ) (temperature : ℚ) (seed : ℕ) :
    Except String (DesignResult × RawData) :=
  let rng' := set_seed seed
  match normalize_coords lenRNA bbIdx raw with
  | Except.error e => Except.error e
  | Except.ok raw' =>
    let fd := featurized.getD (featurize raw')
    let sampled := sampler rng' fd n_samples temperature
    let samples := sampled.1
    let logits := sampled.2
    let perplexity := perplexity_scores logits samples
    let recovery := recovery_scores samples fd.seq
    let sc_score := sc samples raw'.sec_struct_list fd.mask_coords
    let sequences := input_record raw'.sequence
      :: designed_records 0 samples perplexity recovery sc_score
    Except.ok
      (⟨sequences, samples, perplexity, recovery, sc_score⟩, raw')

/-- The checkpoint-path mapping CONFORMERS_TO_CHECKPOINT_PATH keyed by
maximum conformer count (paths relative to PROJECT_PATH). -/
def CONFORMERS_TO_CHECKPOINT_PATH : List (ℤ × String) :=
  [(1, "checkpoints/gRNAde_ARv1_1state.h5"),
   (2, "checkpoints/gRNAde_ARv1_2state.h5"),
   (3, "checkpoints/gRNAde_ARv1_3state.h5"),
   (5, "checkpoints/gRNAde_ARv1_5state.h5")]

/-- max(list(CONFORMERS_TO_CHECKPOINT_PATH.keys())). -/
def max_supported_conformers : ℤ :=
  (CONFORMERS_TO_CHECKPOINT_PATH.map Prod.fst).foldr max 0

/-- The clamping step of gRNAde.init: only values strictly above the
maximum supported key are reduced (to that maximum, with a printed
warning); every other value passes through unchanged. -/
def clamp_max_num_conformers (n : ℤ) : ℤ :=
  if max_supported_conformers < n then max_supported_conformers else n

/-- The conformer-count handling of gRNAde.init: clamp, then index
the checkpoint dictionary with the clamped value; a missing key is a
python KeyError. -/
def grnade_init (max_num_conformers : ℤ) : Except String (ℤ × String) :=
  let n := clamp_max_num_conformers max_num_conformers
  match CONFORMERS_TO_CHECKPOINT_PATH.lookup n with
  | some path => Except.ok (n, path)
  | none => Except.error ("KeyError: " ++ toString n)

/-- The input-selection logic of the command-line entry point: raise
ValueError when neither pdb_filepath nor directory_filepath is given;
otherwise take the pdb_filepath branch when it is set, and the
directory branch only when pdb_filepath is absent. -/
def cli_dispatch (pdb_filepath directory_filepath : Option String) :
    Except String (String ⊕ String) :=
  match pdb_filepath, directory_filepath with
  | none, none =>
    Except.error
      "ValueError: Please specify either pdb_filepath or directory_filepath"
  | some p, _ => Except.ok (Sum.inl p)
  | none, some d => Except.ok (Sum.inr d)

/-- Outer success test on an Except value (only the constructor is
inspected). -/
def except_is_ok {α : Type} : Except String α → Bool
  | Except.ok _ => true
  | Except.error _ => false

/-- C9 counterexample: supplying both pdb_filepath and
directory_filepath does not produce a usage error; the pdb branch is
taken and the directory input is silently ignored, refuting the
claimed exactly-one requirement. -/
theorem cli_dispatch_accepts_both :
    cli_dispatch (some "input.pdb") (some "conformer_dir")
      = Except.ok (Sum.inl "input.pdb") := rfl

/-- C9 (amended): the CLI fails with a usage error exactly when
neither pdb_filepath nor directory_filepath is supplied; when
pdb_filepath is supplied (even together with directory_filepath) the
pdb branch is taken, and the directory branch is taken only when
pdb_filepath is absent. -/
theorem cli_dispatch_input_selection (pdb dir : Option String) :
    (cli_dispatch pdb dir
        = Except.error
          "ValueError: Please specify either pdb_filepath or directory_filepath"
      ↔ pdb = none ∧ dir = none)
    ∧ (∀ p, pdb = some p → cli_dispatch pdb dir = Except.ok (Sum.inl p))
    ∧ (∀ d, pdb = none → dir = some d →
        cli_dispatch pdb dir = Except.ok (Sum.inr d)) := by
  cases pdb <;> cases dir <;> simp [cli_dispatch]

/-- C9 witness: the amended theorem evaluated at a concrete call with
only a pdb filepath. -/
theorem cli_dispatch_input_selection_witness :
    cli_dispatch (some "mol.pdb") none = Except.ok (Sum.inl "mol.pdb") :=
  (cli_dispatch_input_selection (some "mol.pdb") none).2.1 "mol.pdb" rfl

/-- C8 counterexample: the requested value 4 has no matching
checkpoint, yet initialization does not clamp it down to a supported
ceiling: the clamp leaves 4 unchanged (it only caps values above the
maximum key) and the checkpoint lookup then fails with a KeyError,
refuting the claimed clamp-and-load policy. -/
theorem grnade_init_unsupported_four :
    clamp_max_num_conformers 4 = 4
    ∧ CONFORMERS_TO_CHECKPOINT_PATH.lookup 4 = none
    ∧ grnade_init 4 = Except.error ("KeyError: " ++ toString (4 : ℤ)) := by
  refine ⟨rfl, rfl, rfl⟩

/-- C8 (amended): a requested max_num_conformers above the maximum
supported key (5) is clamped down to 5 with a warning and the
5-conformer checkpoint is then loaded; a supported value loads its
own checkpoint; any other value (at most 5 but outside the key set
1, 2, 3, 5) is not clamped and initialization fails with a KeyError
instead of loading a checkpoint. -/
theorem grnade_init_clamp_policy (n : ℤ) :
    (max_supported_conformers < n →
      grnade_init n = Except.ok (5, "checkpoints/gRNAde_ARv1_5state.h5"))
    ∧ (n = 1 ∨ n = 2 ∨ n = 3 ∨ n = 5 → ∃ p, grnade_init n = Except.ok (n, p))
    ∧ (n ≤ max_supported_conformers → ¬(n = 1 ∨ n = 2 ∨ n = 3 ∨ n = 5) →
      grnade_init n = Except.error ("KeyError: " ++ toString n)) := by
  have hmax : max_supported_conformers = 5 := by decide
  refine ⟨?_, ?_, ?_⟩
  · intro h
    have hc : clamp_max_num_conformers n = 5 := by
      rw [clamp_max_num_conformers, if_pos h, hmax]
    simp only [grnade_init, hc]
    rfl
  · rintro (rfl | rfl | rfl | rfl)
    · exact ⟨"checkpoints/gRNAde_ARv1_1state.h5", rfl⟩
    · exact ⟨"checkpoints/gRNAde_ARv1_2state.h5", rfl⟩
    · exact ⟨"checkpoints/gRNAde_ARv1_3state.h5", rfl⟩
    · exact ⟨"checkpoints/gRNAde_ARv1_5state.h5", rfl⟩
  · intro hle hnot
    push_neg at hnot
    obtain ⟨h1, h2, h3, h5⟩ := hnot
    have hc : clamp_max_num_conformers n = n :=
      if_neg (not_lt.mpr hle)
    have e1 : (n == (1 : ℤ)) = false := beq_eq_false_iff_ne.mpr h1
    have e2 : (n == (2 : ℤ)) = false := beq_eq_false_iff_ne.mpr h2
    have e3 : (n == (3 : ℤ)) = false := beq_eq_false_iff_ne.mpr h3
    have e5 : (n == (5 : ℤ)) = false := beq_eq_false_iff_ne.mpr h5
    simp [grnade_init, hc, CONFORMERS_TO_CHECKPOINT_PATH, List.lookup,
      e1, e2, e3, e5]

/-- C8 witness: the amended theorem at the concrete requested values 6
(clamped to 5, checkpoint loaded) and 4 (KeyError). -/
theorem grnade_init_clamp_policy_witness :
    grnade_init 6 = Except.ok (5, "checkpoints/gRNAde_ARv1_5state.h5")
    ∧ grnade_init 4 = Except.error ("KeyError: " ++ toString (4 : ℤ)) :=
  ⟨(grnade_init_clamp_policy 6).1 (by decide),
   (grnade_init_clamp_policy 4).2.2 (by decide) (by decide)⟩

/-- C4: two design calls with identical raw input, identical seed and
identical configuration produce identical results (and in particular
identical samples matrices): design reseeds every random source from
the given seed through set_seed at the start of the call, so the
outcome is independent of the random-generator state left by earlier
calls (the sampler being a deterministic function of the reseeded
state models deterministically configured backend kernels). -/
theorem design_independent_of_prior_rng_state (lenRNA : ℕ)
    (bbIdx : Char → List ℕ) (featurize : RawData → FeatData)
    (sampler : RngState → FeatData → ℕ → ℚ →
      List (List (Fin 4)) × List (List (Fin 4 → ℝ)))
    (sc : List (List (Fin 4)) → List String → List Bool → List ℚ)
    (raw : RawData) (featurized : Option FeatData)
    (n_samples : ℕ) (temperature : ℚ) (seed : ℕ)
    (rng1 rng2 : RngState) :
    design lenRNA bbIdx featurize sampler sc rng1 raw featurized
        n_samples temperature seed
      = design lenRNA bbIdx featurize sampler sc rng2 raw featurized
        n_samples temperature seed := rfl

lemma categorical_cross_entropy_nonneg (l : Fin 4 → ℝ) (t : Fin 4) :
    0 ≤ categorical_cross_entropy l t := by
  have hpos : 0 < ∑ j, Real.exp (l j) :=
    Finset.sum_pos (fun j _ => Real.exp_pos (l j)) Finset.univ_nonempty
  have h1 : Real.exp (l t) ≤ ∑ j, Real.exp (l j) :=
    Finset.single_le_sum (fun j _ => (Real.exp_pos (l j)).le)
      (Finset.mem_univ t)
  have h2 : l t ≤ Real.log (∑ j, Real.exp (l j)) :=
    (Real.le_log_iff_exp_le hpos).mpr h1
  simpa [categorical_cross_entropy] using sub_nonneg.mpr h2

lemma zipWith_cross_entropy_sum_nonneg :
    ∀ (lg : List (Fin 4 → ℝ)) (s : List (Fin 4)),
      0 ≤ (List.zipWith categorical_cross_entropy lg s).sum := by
  intro lg
  induction lg with
  | nil => intro s; simp
  | cons l lg ih =>
    intro s
    cases s with
    | nil => simp
    | cons t s =>
      simp only [List.zipWith_cons_cons, List.sum_cons]
      exact add_nonneg (categorical_cross_entropy_nonneg l t) (ih s)

/-- C2: for every sample and every real-valued logits tensor, the
perplexity computed by the scoring step of gRNAde.design, the
exponential of the mean over the L positions of the categorical
cross-entropy between the sampled class and the realized logits at
that position, is at least 1. -/
theorem sample_perplexity_ge_one (lg : List (Fin 4 → ℝ))
    (s : List (Fin 4)) (hlen : lg.length = s.length)
    (hpos : 0 < lg.length) :
    1 ≤ sample_perplexity lg s := by
  rw [sample_perplexity]
  have hnn : 0 ≤ (List.zipWith categorical_cross_entropy lg s).sum
      / (lg.length : ℝ) :=
    div_nonneg (zipWith_cross_entropy_sum_nonneg lg s)
      (Nat.cast_nonneg lg.length)
  calc (1 : ℝ) = Real.exp 0 := Real.exp_zero.symm
    _ ≤ _ := Real.exp_le_exp.mpr hnn

/-- C2 witness: the perplexity bound evaluated at a concrete
three-position logits tensor and sample row. -/
theorem sample_perplexity_ge_one_witness :
    ([fun _ => (0 : ℝ), fun _ => 1, fun _ => 2] : List (Fin 4 → ℝ)).length
        = ([0, 1, 2] : List (Fin 4)).length
    ∧ 0 < ([fun _ => (0 : ℝ), fun _ => 1, fun _ => 2] :
        List (Fin 4 → ℝ)).length
    ∧ 1 ≤ sample_perplexity [fun _ => (0 : ℝ), fun _ => 1, fun _ => 2]
        [0, 1, 2] :=
  ⟨rfl, by simp,
   sample_perplexity_ge_one [fun _ => (0 : ℝ), fun _ => 1, fun _ => 2]
     [0, 1, 2] rfl (by simp)⟩

lemma zipWith_indicator_sum_eq_countMatches :
    ∀ (row : List (Fin 4)) (gt : List ℕ),
      (List.zipWith
        (fun (a : Fin 4) (b : ℕ) => if (a : ℕ) = b then (1 : ℚ) else 0)
        row gt).sum = (countMatches row gt : ℚ) := by
  intro row
  induction row with
  | nil => intro gt; simp [countMatches]
  | cons a row ih =>
    intro gt
    cases gt with
    | nil => simp [countMatches]
    | cons b gt =>
      by_cases h : (a : ℕ) = b
      · simp [countMatches, List.count_cons, h, ih gt]
        ring
      · simp [countMatches, List.count_cons, h, ih gt]

lemma countMatches_self :
    ∀ (row : List (Fin 4)), countMatches row (row.map Fin.val) = row.length := by
  intro row
  induction row with
  | nil => simp [countMatches]
  | cons a row ih =>
    simp [countMatches, List.count_cons] at ih ⊢
    omega

/-- C3: the recovery computed by the scoring step of gRNAde.design for
a sample row against a ground-truth label vector of the same length L
equals the number of matching positions divided by L, and a row that
is exactly the ground-truth vector has recovery 1. -/
theorem recovery_row_matches_fraction (row : List (Fin 4)) (gt : List ℕ)
    (hlen : row.length = gt.length) (hpos : 0 < row.length) :
    recovery_row row gt = (countMatches row gt : ℚ) / (row.length : ℚ)
    ∧ (row.map Fin.val = gt → recovery_row row gt = 1) := by
  have hfrac : recovery_row row gt
      = (countMatches row gt : ℚ) / (row.length : ℚ) := by
    rw [recovery_row, zipWith_indicator_sum_eq_countMatches]
  refine ⟨hfrac, ?_⟩
  intro hid
  rw [hfrac, ← hid, countMatches_self]
  exact div_self (by exact_mod_cast hpos.ne')

/-- C3 witness: the recovery characterization evaluated at a concrete
sample row equal to its ground-truth vector. -/
theorem recovery_row_matches_fraction_witness :
    ([(0 : Fin 4), 1, 3] : List (Fin 4)).length = ([0, 1, 3] : List ℕ).length
    ∧ recovery_row [(0 : Fin 4), 1, 3] [0, 1, 3] = 1 :=
  ⟨rfl,
   (recovery_row_matches_fraction [(0 : Fin 4), 1, 3] [0, 1, 3] rfl
     (by simp)).2 (by decide)⟩

lemma normalize_coords_full_atom (lenRNA : ℕ) (bbIdx : Char → List ℕ)
    (s : String) (c0 : Conformer) (cl : List Conformer) (ss : List String)
    (h3 : c0.atoms_per_res ≠ 3) (hfull : c0.atoms_per_res = lenRNA) :
    normalize_coords lenRNA bbIdx ⟨s, c0 :: cl, ss⟩ =
      if 0 < (((c0 :: cl).map (fun c => get_backbone_coords bbIdx c s)).filter
          (fun c => !(dropConformer c))).length then
        Except.ok ⟨s,
          ((c0 :: cl).map (fun c => get_backbone_coords bbIdx c s)).filter
            (fun c => !(dropConformer c)), ss⟩
      else Except.ok ⟨s, c0 :: cl, ss⟩ := by
  simp only [normalize_coords, if_neg h3, if_pos hfull]

lemma normalize_coords_preserves (lenRNA : ℕ) (bbIdx : Char → List ℕ)
    (raw raw' : RawData)
    (h : normalize_coords lenRNA bbIdx raw = Except.ok raw') :
    raw'.sequence = raw.sequence
    ∧ raw'.sec_struct_list = raw.sec_struct_list := by
  rcases hl : raw.coords_list with _ | ⟨c0, rest⟩ <;>
    simp only [normalize_coords, hl] at h
  · cases h
  · split_ifs at h with h1 h2 h3 <;>
      (cases h; try exact ⟨rfl, rfl⟩)

lemma dropConformer_eq_false_iff (c : Conformer) :
    dropConformer c = false ↔ ∃ r ∈ c.residues, residueHasFill r = false := by
  simp [dropConformer, List.all_eq_false]

lemma design_ok_of_normalize_ok (lenRNA : ℕ) (bbIdx : Char → List ℕ)
    (featurize : RawData → FeatData)
    (sampler : RngState → FeatData → ℕ → ℚ →
      List (List (Fin 4)) × List (List (Fin 4 → ℝ)))
    (sc : List (List (Fin 4)) → List String → List Bool → List ℚ)
    (rng : RngState) (raw raw' : RawData) (featurized : Option FeatData)
    (n_samples : ℕ) (temperature : ℚ) (seed : ℕ)
    (h : normalize_coords lenRNA bbIdx raw = Except.ok raw') :
    ∃ out, design lenRNA bbIdx featurize sampler sc rng raw featurized
        n_samples temperature seed = Except.ok (out, raw') := by
  simp only [design, h]
  exact ⟨_, rfl⟩

/-- Shared concrete fixtures for witnesses and counterexamples. -/
def bbFix : Char → List ℕ := fun _ => [0, 1, 2]

def atomOK : Coord := [1, 2, 3]

def atomFill : Coord := [FILL_VALUE, FILL_VALUE, FILL_VALUE]

def confValid : Conformer := ⟨4, [[atomOK, atomOK, atomOK, atomOK]]⟩

def confMissing : Conformer := ⟨4, [[atomFill, atomFill, atomFill, atomFill]]⟩

def confMissing2 : Conformer :=
  ⟨4, [[atomFill, atomFill, atomFill, atomFill],
       [atomFill, atomFill, atomFill, atomFill]]⟩

def rawTwoMissing : RawData := ⟨"AA", [confMissing2, confMissing], [".", "."]⟩

def confBB : Conformer := ⟨3, [[atomOK, atomOK, atomOK]]⟩

def confBB0 : Conformer := ⟨3, []⟩

def confSeven : Conformer := ⟨7, []⟩

def rawSeven : RawData := ⟨"A", [confBB0, confSeven], ["."]⟩

def rawSevenFirst : RawData := ⟨"A", [confSeven], ["."]⟩

def rawAllMissing : RawData := ⟨"A", [confMissing], ["."]⟩

def fdFix : FeatData := ⟨[0, 0], [true, true]⟩

def featurizeFix : RawData → FeatData := fun _ => fdFix

def samplerFix : RngState → FeatData → ℕ → ℚ →
    List (List (Fin 4)) × List (List (Fin 4 → ℝ)) :=
  fun _ _ _ _ =>
    ([[0, 1], [2, 3]],
     [[fun _ => 0, fun _ => 0], [fun _ => 0, fun _ => 0]])

def scFix : List (List (Fin 4)) → List String → List Bool → List ℚ :=
  fun samples _ _ => List.replicate samples.length 0

/-- C6 counterexample: a full-atom input whose two conformers both
meet the drop condition (every residue has sentinel-filled
coordinates) refutes the claim: nothing is dropped during
normalization; the coords_list after the call still contains both
full-atom conformers unchanged (4 atoms per residue, not
backbone-only), because the filtered list is assigned only when it is
nonempty. -/
theorem normalize_full_atom_drop_retain_counterexample :
    dropConformer (get_backbone_coords bbFix confMissing2 "AA") = true
    ∧ dropConformer (get_backbone_coords bbFix confMissing "AA") = true
    ∧ normalize_coords 4 bbFix rawTwoMissing = Except.ok rawTwoMissing
    ∧ rawTwoMissing.coords_list = [confMissing2, confMissing]
    ∧ confMissing2.atoms_per_res = 4
    ∧ confMissing.atoms_per_res = 4 := by
  exact ⟨by decide, by decide, rfl, rfl, rfl, rfl⟩

/-- C6 (amended): on a full-atom input in which at least one conformer
survives the filter (some conformer has a fully valid residue), a
conformer is dropped by the normalization filter exactly when every
one of its residues has a sentinel-filled coordinate, it is retained
exactly when at least one residue is fully valid, and the retained
conformers are backbone-only (3 atoms per residue) in their original
order (a sublist of the backbone-reduced input list). -/
theorem normalize_full_atom_drop_retain
    (lenRNA : ℕ) (bbIdx : Char → List ℕ) (s : String) (c0 : Conformer)
    (cl : List Conformer) (ss : List String)
    (h3 : c0.atoms_per_res ≠ 3) (hfull : c0.atoms_per_res = lenRNA)
    (hb : ∀ ch, (bbIdx ch).length = 3)
    (kept : List Conformer)
    (hkept : kept
      = ((c0 :: cl).map (fun c => get_backbone_coords bbIdx c s)).filter
        (fun c => !(dropConformer c)))
    (hne : kept ≠ []) :
    normalize_coords lenRNA bbIdx ⟨s, c0 :: cl, ss⟩ = Except.ok ⟨s, kept, ss⟩
    ∧ (∀ c ∈ (c0 :: cl).map (fun c => get_backbone_coords bbIdx c s),
        (c ∈ kept ↔ ∃ r ∈ c.residues, residueHasFill r = false))
    ∧ kept.Sublist ((c0 :: cl).map (fun c => get_backbone_coords bbIdx c s))
    ∧ (∀ c ∈ kept, c.atoms_per_res = 3 ∧ ∀ r ∈ c.residues, r.length = 3) := by
  have hlen : 0 < kept.length := List.length_pos.mpr hne
  refine ⟨?_, ?_, ?_, ?_⟩
  · rw [normalize_coords_full_atom lenRNA bbIdx s c0 cl ss h3 hfull, ← hkept,
      if_pos hlen]
  · intro c hc
    rw [hkept, List.mem_filter]
    constructor
    · rintro ⟨-, hdrop⟩
      exact (dropConformer_eq_false_iff c).mp (by simpa using hdrop)
    · intro hex
      refine ⟨hc, ?_⟩
      simpa using (dropConformer_eq_false_iff c).mpr hex
  · rw [hkept]
    exact List.filter_sublist _
  · intro c hc
    rw [hkept, List.mem_filter] at hc
    obtain ⟨hmem, -⟩ := hc
    obtain ⟨c', -, rfl⟩ := List.mem_map.mp hmem
    refine ⟨rfl, ?_⟩
    intro r hr
    simp only [get_backbone_coords, List.mem_map] at hr
    obtain ⟨p, -, rfl⟩ := hr
    rw [List.length_map, hb]

/-- C6 witness: the drop/retain behavior at a concrete two-conformer
full-atom input where exactly one conformer survives. -/
theorem normalize_full_atom_drop_retain_witness :
    normalize_coords 4 bbFix ⟨"A", [confValid, confMissing], [".", "."]⟩
      = Except.ok ⟨"A", [confBB], [".", "."]⟩ :=
  (normalize_full_atom_drop_retain 4 bbFix "A" confValid [confMissing]
    [".", "."] (by decide) (by decide) (fun _ => rfl) [confBB] (by decide)
    (by decide)).1

/-- C7 counterexample: a full-atom input in which every conformer is
dropped (all residues sentinel-filled) does not fail: normalization
returns the input unchanged instead of raising
EmptyConformerSetError, refuting the claimed failure. -/
theorem normalize_all_dropped_no_error :
    ((rawAllMissing.coords_list.map
        (fun c => get_backbone_coords bbFix c rawAllMissing.sequence)).filter
      (fun c => !(dropConformer c)) = [])
    ∧ normalize_coords 4 bbFix rawAllMissing = Except.ok rawAllMissing := by
  exact ⟨by decide, rfl⟩

/-- C7 (amended): on a full-atom input in which every conformer is
dropped by the missing-coordinate filter, the call does not fail: the
guard on the filtered list being nonempty leaves coords_list
unchanged and the call proceeds with the unfiltered input. -/
theorem normalize_all_dropped_passthrough (lenRNA : ℕ)
    (bbIdx : Char → List ℕ) (s : String) (c0 : Conformer)
    (cl : List Conformer) (ss : List String)
    (h3 : c0.atoms_per_res ≠ 3) (hfull : c0.atoms_per_res = lenRNA)
    (hall : ((c0 :: cl).map (fun c => get_backbone_coords bbIdx c s)).filter
        (fun c => !(dropConformer c)) = []) :
    normalize_coords lenRNA bbIdx ⟨s, c0 :: cl, ss⟩
      = Except.ok ⟨s, c0 :: cl, ss⟩ := by
  rw [normalize_coords_full_atom lenRNA bbIdx s c0 cl ss h3 hfull, hall]
  simp

/-- C7 witness: the amended pass-through behavior at a concrete
all-dropped input. -/
theorem normalize_all_dropped_passthrough_witness :
    normalize_coords 4 bbFix ⟨"A", [confMissing], ["."]⟩
      = Except.ok ⟨"A", [confMissing], ["."]⟩ :=
  normalize_all_dropped_passthrough 4 bbFix "A" confMissing [] ["."]
    (by decide) (by decide) (by decide)

/-- C5 counterexample: an input whose first conformer is backbone-only
(3 atoms) but whose second conformer has 7 atoms per residue (neither
3 nor the full canonical count 28) is not rejected: the atom-count
check inspects only coords_list[0], so normalization succeeds and the
whole design call returns a result instead of failing, refuting the
claim for inputs where only some conformers have an invalid atom
count. -/
theorem design_ignores_later_conformer_atom_count :
    rawSeven.coords_list[1]? = some confSeven
    ∧ confSeven.atoms_per_res = 7
    ∧ ¬((7 : ℕ) = 3 ∨ (7 : ℕ) = 28)
    ∧ normalize_coords 28 bbFix rawSeven = Except.ok rawSeven
    ∧ except_is_ok (design 28 bbFix featurizeFix samplerFix scFix
        (set_seed 0) rawSeven (some fdFix) 2 (1 / 10) 0) = true := by
  exact ⟨rfl, rfl, by decide, rfl, rfl⟩

lemma normalize_coords_ok_of_first_valid (lenRNA : ℕ)
    (bbIdx : Char → List ℕ) (s : String) (c0 : Conformer)
    (cl : List Conformer) (ss : List String)
    (h : c0.atoms_per_res = 3 ∨ c0.atoms_per_res = lenRNA) :
    ∃ raw', normalize_coords lenRNA bbIdx ⟨s, c0 :: cl, ss⟩
      = Except.ok raw' := by
  by_cases h3 : c0.atoms_per_res = 3
  · exact ⟨⟨s, c0 :: cl, ss⟩, by simp only [normalize_coords, if_pos h3]⟩
  · have hfull : c0.atoms_per_res = lenRNA := h.resolve_left h3
    by_cases hk : 0
      < (((c0 :: cl).map (fun c => get_backbone_coords bbIdx c s)).filter
        (fun c => !(dropConformer c))).length
    · refine ⟨⟨s,
        ((c0 :: cl).map (fun c => get_backbone_coords bbIdx c s)).filter
          (fun c => !(dropConformer c)), ss⟩, ?_⟩
      rw [normalize_coords_full_atom lenRNA bbIdx s c0 cl ss h3 hfull,
        if_pos hk]
    · refine ⟨⟨s, c0 :: cl, ss⟩, ?_⟩
      rw [normalize_coords_full_atom lenRNA bbIdx s c0 cl ss h3 hfull,
        if_neg hk]

/-- C5 (amended): the atom-count validation applies only to the first
conformer: the design call fails with the ValueError about an invalid
number of atoms per nucleotide exactly when the first conformer's
per-residue atom count is neither 3 nor the full canonical atom
count; when the first conformer's count is valid the call succeeds,
whatever the atom counts of the remaining conformers, so an invalid
count in a later conformer never causes a failure. -/
theorem design_first_conformer_atom_check
    (lenRNA : ℕ) (bbIdx : Char → List ℕ) (featurize : RawData → FeatData)
    (sampler : RngState → FeatData → ℕ → ℚ →
      List (List (Fin 4)) × List (List (Fin 4 → ℝ)))
    (sc : List (List (Fin 4)) → List String → List Bool → List ℚ)
    (rng : RngState) (featurized : Option FeatData)
    (n_samples : ℕ) (temperature : ℚ) (seed : ℕ)
    (s : String) (c0 : Conformer) (cl : List Conformer) (ss : List String) :
    (c0.atoms_per_res ≠ 3 → c0.atoms_per_res ≠ lenRNA →
      design lenRNA bbIdx featurize sampler sc rng ⟨s, c0 :: cl, ss⟩
          featurized n_samples temperature seed
        = Except.error
          ("ValueError: Invalid number of atoms per nucleotide in input data: "
            ++ toString c0.atoms_per_res))
    ∧ (c0.atoms_per_res = 3 ∨ c0.atoms_per_res = lenRNA →
      ∃ out raw', design lenRNA bbIdx featurize sampler sc rng
          ⟨s, c0 :: cl, ss⟩ featurized n_samples temperature seed
        = Except.ok (out, raw')) := by
  constructor
  · intro h3 hl
    have hn : normalize_coords lenRNA bbIdx ⟨s, c0 :: cl, ss⟩
        = Except.error
          ("ValueError: Invalid number of atoms per nucleotide in input data: "
            ++ toString c0.atoms_per_res) := by
      simp only [normalize_coords, if_neg h3, if_neg hl]
    simp only [design, hn]
  · intro h
    obtain ⟨raw', hraw'⟩ :=
      normalize_coords_ok_of_first_valid lenRNA bbIdx s c0 cl ss h
    obtain ⟨out, hout⟩ := design_ok_of_normalize_ok lenRNA bbIdx featurize
      sampler sc rng ⟨s, c0 :: cl, ss⟩ raw' featurized n_samples
      temperature seed hraw'
    exact ⟨out, raw', hout⟩

/-- C5 witness: both halves of the amended first-conformer check at
concrete inputs: a call whose first conformer has 7 atoms per residue
fails with the ValueError, while a call whose first conformer is
valid (3 atoms) but whose second conformer has 7 atoms per residue
succeeds. -/
theorem design_first_conformer_atom_check_witness :
    (design 28 bbFix featurizeFix samplerFix scFix (set_seed 0) rawSevenFirst
        (some fdFix) 2 (1 / 10) 0
      = Except.error
        ("ValueError: Invalid number of atoms per nucleotide in input data: "
          ++ toString (7 : ℕ)))
    ∧ ∃ out raw', design 28 bbFix featurizeFix samplerFix scFix (set_seed 0)
        rawSeven (some fdFix) 2 (1 / 10) 0 = Except.ok (out, raw') :=
  ⟨(design_first_conformer_atom_check 28 bbFix featurizeFix samplerFix scFix
      (set_seed 0) (some fdFix) 2 (1 / 10) 0 "A" confSeven [] ["."]).1
    (by decide) (by decide),
   (design_first_conformer_atom_check 28 bbFix featurizeFix samplerFix scFix
      (set_seed 0) (some fdFix) 2 (1 / 10) 0 "A" confBB0 [confSeven]
      ["."]).2 (Or.inl rfl)⟩

/-- C10: on full-atom input with at least one surviving conformer, the
design call mutates its raw_data argument in place, replacing
coords_list with the filtered backbone-only conformer list; the
resulting dictionary differs from the one passed in. -/
theorem design_replaces_coords_list
    (lenRNA : ℕ) (bbIdx : Char → List ℕ) (featurize : RawData → FeatData)
    (sampler : RngState → FeatData → ℕ → ℚ →
      List (List (Fin 4)) × List (List (Fin 4 → ℝ)))
    (sc : List (List (Fin 4)) → List String → List Bool → List ℚ)
    (rng : RngState) (featurized : Option FeatData)
    (n_samples : ℕ) (temperature : ℚ) (seed : ℕ)
    (s : String) (c0 : Conformer) (cl : List Conformer) (ss : List String)
    (h3 : c0.atoms_per_res ≠ 3) (hfull : c0.atoms_per_res = lenRNA)
    (kept : List Conformer)
    (hkept : kept
      = ((c0 :: cl).map (fun c => get_backbone_coords bbIdx c s)).filter
        (fun c => !(dropConformer c)))
    (hne : kept ≠ []) :
    ∃ out, design lenRNA bbIdx featurize sampler sc rng ⟨s, c0 :: cl, ss⟩
        featurized n_samples temperature seed = Except.ok (out, ⟨s, kept, ss⟩)
    ∧ RawData.mk s kept ss ≠ RawData.mk s (c0 :: cl) ss := by
  have hnorm : normalize_coords lenRNA bbIdx ⟨s, c0 :: cl, ss⟩
      = Except.ok ⟨s, kept, ss⟩ := by
    rw [normalize_coords_full_atom lenRNA bbIdx s c0 cl ss h3 hfull, ← hkept,
      if_pos (List.length_pos.mpr hne)]
  obtain ⟨out, hout⟩ := design_ok_of_normalize_ok lenRNA bbIdx featurize
    sampler sc rng ⟨s, c0 :: cl, ss⟩ ⟨s, kept, ss⟩ featurized n_samples
    temperature seed hnorm
  refine ⟨out, hout, ?_⟩
  intro heq
  have hkeq : kept = c0 :: cl := ((RawData.mk.injEq _ _ _ _ _ _).mp heq).2.1
  have hc0 : c0 ∈ kept := hkeq ▸ List.mem_cons_self c0 cl
  rw [hkept] at hc0
  have hmem := (List.mem_filter.mp hc0).1
  obtain ⟨c', -, hcc⟩ := List.mem_map.mp hmem
  have hat : c0.atoms_per_res = 3 := by rw [← hcc]; rfl
  exact h3 hat

/-- C10 witness: the in-place replacement at a concrete two-conformer
full-atom input with one surviving conformer. -/
theorem design_replaces_coords_list_witness :
    ∃ out, design 4 bbFix featurizeFix samplerFix scFix (set_seed 0)
        ⟨"A", [confValid, confMissing], [".", "."]⟩ (some fdFix) 2 (1 / 10) 0
      = Except.ok (out, ⟨"A", [confBB], [".", "."]⟩)
    ∧ RawData.mk "A" [confBB] [".", "."]
      ≠ RawData.mk "A" [confValid, confMissing] [".", "."] :=
  design_replaces_coords_list 4 bbFix featurizeFix samplerFix scFix
    (set_seed 0) (some fdFix) 2 (1 / 10) 0 "A" confValid [confMissing]
    [".", "."] (by decide) (by decide) [confBB] (by decide) (by decide)

lemma designed_records_spec :
    ∀ (ss : List (List (Fin 4))) (ps : List ℝ) (rs cs : List ℚ) (k : ℕ),
      ps.length = ss.length → rs.length = ss.length → cs.length = ss.length →
      (designed_records k ss ps rs cs).length = ss.length
      ∧ (designed_records k ss ps rs cs).map SeqRec.seq
        = ss.map (fun srow => String.mk (srow.map NUM_TO_LETTER))
      ∧ (designed_records k ss ps rs cs).map SeqRec.id
        = (List.range' k ss.length).map
          (fun i => "sample=" ++ toString i ++ ",") := by
  intro ss
  induction ss with
  | nil =>
    intro ps rs cs k hp hr hc
    obtain rfl : ps = [] := List.eq_nil_of_length_eq_zero hp
    obtain rfl : rs = [] := List.eq_nil_of_length_eq_zero hr
    obtain rfl : cs = [] := List.eq_nil_of_length_eq_zero hc
    exact ⟨rfl, rfl, rfl⟩
  | cons srow ss ih =>
    intro ps rs cs k hp hr hc
    cases ps with
    | nil => simp at hp
    | cons p ps =>
      cases rs with
      | nil => simp at hr
      | cons r rs =>
        cases cs with
        | nil => simp at hc
        | cons c cs =>
          simp only [List.length_cons, Nat.succ.injEq] at hp hr hc
          obtain ⟨hl, hseq, hid⟩ := ih ps rs cs (k + 1) hp hr hc
          have hred : designed_records k (srow :: ss) (p :: ps) (r :: rs)
              (c :: cs)
              = { id := "sample=" ++ toString k ++ ","
                  seq := String.mk (srow.map NUM_TO_LETTER) }
                :: designed_records (k + 1) ss ps rs cs := rfl
          rw [hred]
          refine ⟨by simp [hl], by simp [hseq], ?_⟩
          simp [hid, List.range'_succ]

/-- C1: for every valid design call (normalization succeeds) whose
sampler honors its contract (n_samples sample rows of length L, the
input sequence length, and n_samples logits rows) and whose
self-consistency scorer returns n_samples values, the returned samples
matrix has exactly n_samples rows each of length L, and the returned
sequences list has exactly n_samples + 1 records: the first carries
the input reference sequence and the rest carry the designed samples
in sample order with ids sample=0 through sample=n_samples-1. -/
theorem design_output_shape_contract
    (lenRNA : ℕ) (bbIdx : Char → List ℕ) (featurize : RawData → FeatData)
    (sampler : RngState → FeatData → ℕ → ℚ →
      List (List (Fin 4)) × List (List (Fin 4 → ℝ)))
    (sc : List (List (Fin 4)) → List String → List Bool → List ℚ)
    (rng : RngState) (raw raw' : RawData) (featurized : Option FeatData)
    (fd : FeatData) (samples : List (List (Fin 4)))
    (logits : List (List (Fin 4 → ℝ)))
    (n_samples : ℕ) (temperature : ℚ) (seed : ℕ)
    (hnorm : normalize_coords lenRNA bbIdx raw = Except.ok raw')
    (hfd : featurized.getD (featurize raw') = fd)
    (hsampler : sampler (set_seed seed) fd n_samples temperature
      = (samples, logits))
    (hns : samples.length = n_samples)
    (hrows : ∀ row ∈ samples, row.length = raw.sequence.length)
    (hlog : logits.length = n_samples)
    (hsc : (sc samples raw'.sec_struct_list fd.mask_coords).length
      = n_samples) :
    ∃ out, design lenRNA bbIdx featurize sampler sc rng raw featurized
        n_samples temperature seed = Except.ok (out, raw')
    ∧ out.samples.length = n_samples
    ∧ (∀ row ∈ out.samples, row.length = raw.sequence.length)
    ∧ out.sequences.length = n_samples + 1
    ∧ out.sequences.map SeqRec.seq
      = raw.sequence
        :: out.samples.map (fun srow => String.mk (srow.map NUM_TO_LETTER))
    ∧ out.sequences.map SeqRec.id
      = "input_sequence,"
        :: (List.range n_samples).map
          (fun i => "sample=" ++ toString i ++ ",") := by
  have hseq' : raw'.sequence = raw.sequence :=
    (normalize_coords_preserves lenRNA bbIdx raw raw' hnorm).1
  have hplen : (perplexity_scores logits samples).length = samples.length := by
    simp [perplexity_scores, hlog, hns]
  have hrlen : (recovery_scores samples fd.seq).length = samples.length := by
    simp [recovery_scores]
  have hsclen : (sc samples raw'.sec_struct_list fd.mask_coords).length
      = samples.length := by rw [hsc, hns]
  obtain ⟨hdl, hdseq, hdid⟩ := designed_records_spec samples
    (perplexity_scores logits samples) (recovery_scores samples fd.seq)
    (sc samples raw'.sec_struct_list fd.mask_coords) 0 hplen hrlen hsclen
  refine ⟨⟨input_record raw'.sequence
      :: designed_records 0 samples (perplexity_scores logits samples)
        (recovery_scores samples fd.seq)
        (sc samples raw'.sec_struct_list fd.mask_coords),
      samples, perplexity_scores logits samples,
      recovery_scores samples fd.seq,
      sc samples raw'.sec_struct_list fd.mask_coords⟩,
    ?_, hns, hrows, ?_, ?_, ?_⟩
  · simp only [design, hnorm, hfd, hsampler]
  · simp [hdl, hns]
  · simp only [List.map_cons, hdseq, input_record, hseq']
  · simp only [List.map_cons, hdid, input_record, List.range_eq_range', hns]

/-- C1 witness: the output-shape contract at a concrete backbone-only
input of length 2 with a concrete two-sample sampler. -/
theorem design_output_shape_contract_witness :
    ∃ out, design 28 bbFix featurizeFix samplerFix scFix (set_seed 0)
        ⟨"AC", [confBB0], [".."]⟩ (some fdFix) 2 (1 / 10) 0
      = Except.ok (out, ⟨"AC", [confBB0], [".."]⟩)
    ∧ out.samples.length = 2
    ∧ (∀ row ∈ out.samples,
        row.length = (RawData.mk "AC" [confBB0] [".."]).sequence.length)
    ∧ out.sequences.length = 2 + 1
    ∧ out.sequences.map SeqRec.seq
      = (RawData.mk "AC" [confBB0] [".."]).sequence
        :: out.samples.map (fun srow => String.mk (srow.map NUM_TO_LETTER))
    ∧ out.sequences.map SeqRec.id
      = "input_sequence,"
        :: (List.range 2).map (fun i => "sample=" ++ toString i ++ ",") :=
  design_output_shape_contract 28 bbFix featurizeFix samplerFix scFix
    (set_seed 0) ⟨"AC", [confBB0], [".."]⟩ ⟨"AC", [confBB0], [".."]⟩
    (some fdFix) fdFix [[0, 1], [2, 3]]
    [[fun _ => 0, fun _ => 0], [fun _ => 0, fun _ => 0]] 2 (1 / 10) 0
    rfl rfl rfl rfl (by decide) rfl rfl
